import Mathlib

/-!
Shallow embedding of `src/1_chunking.py` (`process_image_with_captions` and
`process_tables_with_descriptions`) and proofs about the claims of the
specification.

Modelling conventions:
* The process environment after `load_dotenv()` is a parameter: the value of
  `os.getenv("GEMINI_API_KEY")`, an `Option String` (`none` = unset).
* The remote Gemini call (`model.generate_content` followed by
  `response.text`) is an external fallible capability; it is passed in as an
  oracle `gemini : String → List Nat → Except String String` taking the
  prompt and the decoded binary payload and returning the response text or
  the exception message `str(e)`.
* Raised Python exceptions become `Except.error` of a `PyErr`; `print`
  diagnostics and `genai.configure` are side effects with no data flow and
  are not modelled.
-/

namespace Chunking

/-- Python exceptions raised (uncaught) by the script: the `ValueError` of the
missing-credential check (line 24/115) and an `AttributeError` from an
attribute access on an element that lacks the attribute (line 43). -/
inductive PyErr where
  | valueError (msg : String)
  | attributeError (msg : String)
  deriving DecidableEq, Repr

/-- The element-metadata fields the script reads: `metadata.image_base64`
(lines 43 and 57) and `metadata.filename` (line 46). In `unstructured`,
reading a known-but-unset metadata field yields `None`, hence `Option`. -/
structure Metadata where
  image_base64 : Option String
  filename : Option String
  deriving DecidableEq, Repr

/-- Document elements as the script distinguishes them (`isinstance` checks
against `Image` and `FigureCaption`; any other element only occupies a
position). An `Image` carries optional extracted text and optional metadata,
matching the `hasattr` guards at lines 42, 44, 46 and 66. A `FigureCaption`
carries its `text`. -/
inductive Element where
  | Image (text : Option String) (metadata : Option Metadata)
  | FigureCaption (text : String)
  | Table
  | Other
  deriving DecidableEq, Repr

/-- The `image_data` dict built at lines 40-47. `base64_image` and `filename`
may be Python `None` (unset metadata fields), hence `Option String`. -/
structure ImageData where
  caption : String
  image_text : String
  base64_image : Option String
  content : String
  content_type : String
  filename : Option String
  deriving DecidableEq, Repr

/-- The `error_data` dict built at lines 49-52 (fields possibly overwritten at
lines 87-90). -/
structure ErrorData where
  error : Option String
  error_message : Option String
  deriving DecidableEq, Repr

/-- An entry of the returned `processed_images` list. Python lists are
heterogeneous: an entry could be the `image_data` dict or the `error_data`
dict; this sum records which dict was actually appended. -/
inductive OutEntry where
  | imageRec (d : ImageData)
  | errRec (d : ErrorData)
  deriving DecidableEq, Repr

/-- Python truthiness of an `os.getenv` result (`if not api_key`): `None` and
the empty string are falsy. -/
def truthyKey : Option String → Bool
  | none => false
  | some s => !s.isEmpty

/-- The base64 alphabet used by `base64.b64decode`. -/
def b64chars : List Char :=
  "ABCDEFGHIJKLMNOPQRSTUVWXYZabcdefghijklmnopqrstuvwxyz0123456789+/".data

/-- 6-bit value of a base64 alphabet character, `none` outside the alphabet. -/
def b64Index (c : Char) : Option Nat :=
  b64chars.findIdx? (fun d => d = c)

/-- Packs 6-bit groups into bytes: each complete quad yields 3 bytes, a final
triple 2 bytes and a final pair 1 byte. -/
def b64quads : List Nat → List Nat
  | a :: b :: c :: d :: rest =>
      (a * 4 + b / 16) :: ((b % 16) * 16 + c / 4) :: ((c % 4) * 64 + d) :: b64quads rest
  | [a, b, c] => [a * 4 + b / 16, (b % 16) * 16 + c / 4]
  | [a, b] => [a * 4 + b / 16]
  | _ => []

/-- Models CPython `base64.b64decode` (line 57): characters outside the
alphabet and the padding character are skipped, data is read up to the first
padding character, a data length of 1 mod 4 is invalid, and the padding must
complete the final quad; otherwise the 6-bit groups are packed into bytes.
Raises `binascii.Error` (an `Exception`, caught at line 84) otherwise. -/
def b64decode (s : String) : Except String (List Nat) :=
  let kept := s.data.filter (fun c => (b64Index c).isSome || c == '=')
  let dataChars := kept.takeWhile (fun c => c != '=')
  let pad := kept.length - dataChars.length
  let vals := dataChars.filterMap b64Index
  if vals.length % 4 == 1 then
    .error "Invalid base64-encoded string: number of data characters cannot be 1 more than a multiple of 4"
  else if (vals.length + pad) % 4 != 0 then
    .error "Incorrect padding"
  else
    .ok (b64quads vals)

/-- The caption lookup of lines 34-37: if position `idx + 1` exists and holds
a `FigureCaption`, its text; otherwise the sentinel. Note the source sentinel
is `"No caption available"`, with a capital N. -/
def captionAt (raw_chunks : List Element) (idx : Nat) : String :=
  match raw_chunks[idx + 1]? with
  | some (.FigureCaption t) => t
  | _ => "No caption available"

/-- The `image_data` dict value for an Image whose `metadata` attribute is
present (lines 40-47). `chunk.text` defaults to `""` under the `hasattr`
guards at lines 42 and 44. -/
def mkImageDataOk (caption : String) (text : Option String) (m : Metadata) : ImageData :=
  { caption := caption
    image_text := text.getD ""
    base64_image := m.image_base64
    content := text.getD ""
    content_type := "image"
    filename := m.filename }

/-- Evaluation of the `image_data` dict literal (lines 40-47). The value of
key `"base64_image"` is `chunk.metadata.image_base64` with no `hasattr`
guard (line 43): when the element has no `metadata` attribute this raises
`AttributeError` — before the guarded `filename` entry of line 46 is ever
evaluated, so that guard is unreachable dead code for a metadata-less
element. -/
def mkImageData (caption : String) (text : Option String) :
    Option Metadata → Except PyErr ImageData
  | none => .error (.attributeError "Image object has no attribute metadata")
  | some m => .ok (mkImageDataOk caption text m)

/-- The prompt f-string of lines 62-76, typos included; `chunk.text` defaults
to `"No text"` under the `hasattr` guard at line 66. -/
def geminiPrompt (caption : String) (text : Option String) : String :=
  "Generate a comprehensive and detailed description of this image from a technical document abot Retrieval-Augemnted generation. \n\n" ++
  "CONTEXT INFROMATION:\n" ++
  "- Caption : " ++ caption ++ "\n" ++
  "- Text Extracted from image : " ++ (match text with | some t => t | none => "No text") ++ "\n\n" ++
  "DESCRIPTION REQUIREMENTS:\n" ++
  "1. begin with a clear overview of what the image shows (diagram, chart, architecture, etc.)\n" ++
  "2. If it\x27s a diagram or flowchart : describe components, connections, data flow direction, and system architecture\n" ++
  "3. If it\x27s a chart or flowchart : explain axes, trends, key data points and significance\n" ++
  "4. Explain technical terminology and abbreviations that appear in the image\n" ++
  "5. Interpret how this visual relates to RAG concepts and implementation\n" ++
  "6. Include any numerical data, performance metrics, or comparative results shown\n" ++
  "7. target length : 150-300 words for complex diagrams, 100-150 words for simple images\n\n" ++
  "Focus on providing information that would be valuable in a technical context for someone implementing or researching RAG systems."

/-- The body of the `try` block, lines 57-82: decode the base64 payload
(`b64decode(None)` raises `TypeError`, also an `Exception`), then invoke the
remote model on the prompt and binary payload; yields `response.text` on
success, otherwise the message `str(e)` of the raised exception. -/
def geminiTry (gemini : String → List Nat → Except String String)
    (image_base64 : Option String) (caption : String) (text : Option String) :
    Except String String :=
  match image_base64 with
  | none => .error "argument should be a bytes-like object or ASCII string, not NoneType"
  | some s =>
    match b64decode s with
    | .error e => .error e
    | .ok image_binary => gemini (geminiPrompt caption text) image_binary

/-- One iteration of the loop of lines 31-93 at index `idx`: the entries this
iteration appends to `processed_images` and to `encountered_errors` (empty
for a non-Image element), or the exception it raises. On remote success the
`image_data` content is overwritten (line 82) but `image_data` is never
appended anywhere: line 93 appends `error_data` to `processed_images` on
every path, and lines 87-91 additionally append the same dict, with its
fields overwritten, to `encountered_errors` on failure. -/
def loopStep (use_gemini : Bool) (gemini : String → List Nat → Except String String)
    (raw_chunks : List Element) (idx : Nat) :
    Element → Except PyErr (List OutEntry × List ErrorData)
  | .Image text metadata =>
    let caption := captionAt raw_chunks idx
    match mkImageData caption text metadata with
    | .error e => .error e
    | .ok image_data =>
      let error_data : ErrorData := { error := none, error_message := none }
      if use_gemini then
        match geminiTry gemini image_data.base64_image caption text with
        | .ok _response_text =>
          -- line 82 sets image_data["content"] = response.text; the record is
          -- then discarded: line 93 appends error_data, still { none, none }
          .ok ([.errRec error_data], [])
        | .error e =>
          let error_data : ErrorData :=
            { error := some e
              error_message := some "Error generating description with Gemini." }
          .ok ([.errRec error_data], [error_data])
      else
        .ok ([.errRec error_data], [])
  | _ => .ok ([], [])

/-- The final value of the local `image_data` dict for one Image iteration
whose metadata is present: `content` is overwritten with the response text
only when the guarded remote attempt succeeds (line 82); the `except` branch
and the `use_gemini=False` path leave it at its fallback value. -/
def finalImageData (use_gemini : Bool) (gemini : String → List Nat → Except String String)
    (raw_chunks : List Element) (idx : Nat) (text : Option String) (m : Metadata) : ImageData :=
  let caption := captionAt raw_chunks idx
  let image_data := mkImageDataOk caption text m
  if use_gemini then
    match geminiTry gemini m.image_base64 caption text with
    | .ok response_text => { image_data with content := response_text }
    | .error _ => image_data
  else
    image_data

/-- The `for idx, chunk in enumerate(raw_chunks)` loop (lines 31-93), run from
the pending suffix of `raw_chunks` starting at index `idx`; accumulates the
`processed_images` and `encountered_errors` lists, or propagates the first
raised exception (aborting the call, nothing returned). -/
def processFrom (use_gemini : Bool) (gemini : String → List Nat → Except String String)
    (raw_chunks : List Element) :
    List Element → Nat → Except PyErr (List OutEntry × List ErrorData)
  | [], _ => .ok ([], [])
  | chunk :: rest, idx =>
    match loopStep use_gemini gemini raw_chunks idx chunk with
    | .error e => .error e
    | .ok (p, e) =>
      match processFrom use_gemini gemini raw_chunks rest (idx + 1) with
      | .error err => .error err
      | .ok (ps, es) => .ok (p ++ ps, e ++ es)

/-- `process_image_with_captions(raw_chunks, use_gemini)` (lines 1-97).
`gemini_api_key` is the value of `os.getenv("GEMINI_API_KEY")` after
`load_dotenv()`; `gemini` is the remote-capability oracle. Returns the pair
`(processed_images, encountered_errors)` or the raised exception. -/
def process_image_with_captions (raw_chunks : List Element) (use_gemini : Bool)
    (gemini_api_key : Option String)
    (gemini : String → List Nat → Except String String) :
    Except PyErr (List OutEntry × List ErrorData) :=
  if use_gemini && !(truthyKey gemini_api_key) then
    .error (.valueError "GEMINI_API_KEY is not set in the environment variables.")
  else
    processFrom use_gemini gemini raw_chunks raw_chunks 0

/-- `process_tables_with_descriptions(raw_chunks, use_gemini, use_ollama)`
(lines 100-116): validates the credential exactly as the image generator
does, then does no further work and returns `None` (`raw_chunks` and
`use_ollama` are never read). -/
def process_tables_with_descriptions (raw_chunks : List Element) (use_gemini : Bool)
    (use_ollama : Bool) (gemini_api_key : Option String) : Except PyErr Unit :=
  if use_gemini && !(truthyKey gemini_api_key) then
    .error (.valueError "GEMINI_API_KEY is not set in the environment variables.")
  else
    .ok ()

/-- Whether an element is classified as an Image by the loop (line 32). -/
def isImage : Element → Bool
  | .Image _ _ => true
  | _ => false

/-- Selects, from a `processed_images` entry, the error dict it holds when
that dict records a failure (its `error` field is set). -/
def failedOf : OutEntry → Option ErrorData
  | .errRec d => if d.error.isSome then some d else none
  | .imageRec _ => none

/-! ### Demonstration inputs and oracles used by concrete witnesses -/

/-- An oracle whose remote call always raises with message `"boom"`. -/
def gemBoom : String → List Nat → Except String String := fun _ _ => .error "boom"

/-- An oracle whose remote call always succeeds with a fixed description. -/
def gemFine : String → List Nat → Except String String := fun _ _ => .ok "a description"

/-- The Image of the spec scenario: `Image(text="fig1", base64="AAAA")`. -/
def demoImage : Element := .Image (some "fig1") (some ⟨some "AAAA", none⟩)

/-- The spec scenario sequence:
`[Image(text="fig1", base64="AAAA"), FigureCaption(text="Figure 1: architecture")]`. -/
def demoChunks : List Element := [demoImage, .FigureCaption "Figure 1: architecture"]

/-- An Image followed by a non-caption element: no adjacent FigureCaption. -/
def noCapChunks : List Element := [Element.Image none (some ⟨some "AAAA", none⟩), Element.Table]

/-- An Image element whose optional attributes are all missing, in particular
its `metadata` attribute. -/
def bareImage : Element := .Image none none

/-! ### Structural lemmas about the loop -/

/-- The `error_data` dict after the `except` branch of lines 87-90 overwrote
its fields for a failure whose `str(e)` is `msg`. -/
def failedData (msg : String) : ErrorData :=
  { error := some msg, error_message := some "Error generating description with Gemini." }

/-- Case analysis on one loop iteration: it raises `AttributeError` exactly on
an Image without metadata; a non-Image appends nothing; an Image with
metadata appends exactly one `errRec` entry to `processed_images` — with
`none` fields when no failure occurred, and, on failure (only possible with
`use_gemini = true`), with the exception message and the fixed note, the
identical dict also going to `encountered_errors`. -/
theorem loopStep_shape (use_gemini : Bool) (gemini : String → List Nat → Except String String)
    (raw_chunks : List Element) (idx : Nat) (chunk : Element) :
    (∃ text, chunk = Element.Image text none ∧
      loopStep use_gemini gemini raw_chunks idx chunk =
        .error (.attributeError "Image object has no attribute metadata")) ∨
    (isImage chunk = false ∧
      loopStep use_gemini gemini raw_chunks idx chunk = .ok ([], [])) ∨
    (isImage chunk = true ∧
      loopStep use_gemini gemini raw_chunks idx chunk =
        .ok ([.errRec { error := none, error_message := none }], [])) ∨
    (isImage chunk = true ∧ use_gemini = true ∧ ∃ msg,
      loopStep use_gemini gemini raw_chunks idx chunk =
        .ok ([.errRec (failedData msg)], [failedData msg])) := by
  cases chunk with
  | Image text md =>
    cases md with
    | none =>
      exact Or.inl ⟨text, rfl, by simp [loopStep, mkImageData]⟩
    | some m =>
      cases use_gemini with
      | false =>
        exact Or.inr (Or.inr (Or.inl ⟨rfl, by simp [loopStep, mkImageData]⟩))
      | true =>
        cases hg : geminiTry gemini m.image_base64 (captionAt raw_chunks idx) text with
        | ok t =>
          exact Or.inr (Or.inr (Or.inl ⟨rfl, by
            simp [loopStep, mkImageData, mkImageDataOk, hg]⟩))
        | error e =>
          exact Or.inr (Or.inr (Or.inr ⟨rfl, rfl, e, by
            simp [loopStep, mkImageData, mkImageDataOk, hg, failedData]⟩))
  | FigureCaption t => exact Or.inr (Or.inl ⟨rfl, by simp [loopStep]⟩)
  | Table => exact Or.inr (Or.inl ⟨rfl, by simp [loopStep]⟩)
  | Other => exact Or.inr (Or.inl ⟨rfl, by simp [loopStep]⟩)

/-- When the loop runs to completion from any pending suffix, the
`processed_images` entries are exactly one error dict per Image element, the
fields of each are either both `None` or an exception message plus the fixed
note, `encountered_errors` is exactly the failed subset of those same
entries, and with `use_gemini = false` every entry is the untouched
`{ error: None, error_message: None }` dict. -/
theorem processFrom_ok_shape (use_gemini : Bool)
    (gemini : String → List Nat → Except String String) (raw_chunks : List Element)
    (pending : List Element) (idx : Nat) (ps : List OutEntry) (es : List ErrorData)
    (h : processFrom use_gemini gemini raw_chunks pending idx = .ok (ps, es)) :
    ps.length = pending.countP isImage ∧
    es = ps.filterMap failedOf ∧
    (∀ x ∈ ps, ∃ d, x = OutEntry.errRec d ∧
      ((d.error = none ∧ d.error_message = none) ∨
        (∃ msg, d.error = some msg ∧
          d.error_message = some "Error generating description with Gemini."))) ∧
    (use_gemini = false →
      ∀ x ∈ ps, x = OutEntry.errRec { error := none, error_message := none }) := by
  induction pending generalizing idx ps es with
  | nil =>
    rw [processFrom] at h
    injection h with hpair
    injection hpair with h1 h2
    subst h1
    subst h2
    simp
  | cons chunk rest ih =>
    rw [processFrom] at h
    rcases loopStep_shape use_gemini gemini raw_chunks idx chunk with
      ⟨text, heq, hstep⟩ | ⟨hni, hstep⟩ | ⟨hi, hstep⟩ | ⟨hi, hgem, msg, hstep⟩
    · rw [hstep] at h
      exact absurd h (by simp)
    · rw [hstep] at h
      cases hrec : processFrom use_gemini gemini raw_chunks rest (idx + 1) with
      | error err =>
        rw [hrec] at h
        exact absurd h (by simp)
      | ok r =>
        obtain ⟨p1, e1⟩ := r
        rw [hrec] at h
        injection h with hpair
        injection hpair with h1 h2
        subst h1
        subst h2
        obtain ⟨ih1, ih2, ih3, ih4⟩ := ih (idx + 1) p1 e1 hrec
        refine ⟨?_, ?_, ?_, ?_⟩
        · simp [List.countP_cons, hni, ih1]
        · simpa using ih2
        · simpa using ih3
        · intro hfalse
          simpa using ih4 hfalse
    · rw [hstep] at h
      cases hrec : processFrom use_gemini gemini raw_chunks rest (idx + 1) with
      | error err =>
        rw [hrec] at h
        exact absurd h (by simp)
      | ok r =>
        obtain ⟨p1, e1⟩ := r
        rw [hrec] at h
        injection h with hpair
        injection hpair with h1 h2
        subst h1
        subst h2
        obtain ⟨ih1, ih2, ih3, ih4⟩ := ih (idx + 1) p1 e1 hrec
        refine ⟨?_, ?_, ?_, ?_⟩
        · simp [List.countP_cons, hi, ih1]
        · simp [List.filterMap_cons, failedOf, ih2]
        · intro x hx
          rcases List.mem_cons.mp (by simpa using hx) with hhd | htl
          · exact ⟨_, hhd, Or.inl ⟨rfl, rfl⟩⟩
          · exact ih3 x htl
        · intro hfalse x hx
          rcases List.mem_cons.mp (by simpa using hx) with hhd | htl
          · exact hhd
          · exact ih4 hfalse x htl
    · rw [hstep] at h
      cases hrec : processFrom use_gemini gemini raw_chunks rest (idx + 1) with
      | error err =>
        rw [hrec] at h
        exact absurd h (by simp)
      | ok r =>
        obtain ⟨p1, e1⟩ := r
        rw [hrec] at h
        injection h with hpair
        injection hpair with h1 h2
        subst h1
        subst h2
        obtain ⟨ih1, ih2, ih3, ih4⟩ := ih (idx + 1) p1 e1 hrec
        refine ⟨?_, ?_, ?_, ?_⟩
        · simp [List.countP_cons, hi, ih1]
        · simp [List.filterMap_cons, failedOf, failedData, ih2]
        · intro x hx
          rcases List.mem_cons.mp (by simpa using hx) with hhd | htl
          · exact ⟨failedData msg, hhd, Or.inr ⟨msg, rfl, rfl⟩⟩
          · exact ih3 x htl
        · intro hfalse
          exact absurd hgem (by simp [hfalse])

/-- An Image iteration whose metadata attribute is present never raises. -/
theorem loopStep_image_some_ok (use_gemini : Bool)
    (gemini : String → List Nat → Except String String) (raw_chunks : List Element)
    (idx : Nat) (text : Option String) (m : Metadata) :
    ∃ v, loopStep use_gemini gemini raw_chunks idx (Element.Image text (some m)) = .ok v := by
  rcases loopStep_shape use_gemini gemini raw_chunks idx (Element.Image text (some m)) with
    ⟨t, heq, _⟩ | ⟨_, hstep⟩ | ⟨_, hstep⟩ | ⟨_, _, msg, hstep⟩
  · exact absurd heq (by simp)
  · exact ⟨_, hstep⟩
  · exact ⟨_, hstep⟩
  · exact ⟨_, hstep⟩

/-- The loop runs to completion whenever every Image in the pending suffix has
its metadata attribute. -/
theorem processFrom_ok_of_metadata (use_gemini : Bool)
    (gemini : String → List Nat → Except String String) (raw_chunks : List Element)
    (pending : List Element) (idx : Nat)
    (hmd : ∀ text md, Element.Image text md ∈ pending → md.isSome) :
    ∃ r, processFrom use_gemini gemini raw_chunks pending idx = .ok r := by
  induction pending generalizing idx with
  | nil => exact ⟨([], []), rfl⟩
  | cons chunk rest ih =>
    have hstep : ∃ v, loopStep use_gemini gemini raw_chunks idx chunk = .ok v := by
      cases chunk with
      | Image text md =>
        have hsome := hmd text md (List.mem_cons_self _ _)
        cases md with
        | none => exact absurd hsome (by simp)
        | some m => exact loopStep_image_some_ok use_gemini gemini raw_chunks idx text m
      | FigureCaption t => exact ⟨([], []), by simp [loopStep]⟩
      | Table => exact ⟨([], []), by simp [loopStep]⟩
      | Other => exact ⟨([], []), by simp [loopStep]⟩
    obtain ⟨⟨p0, e0⟩, hs⟩ := hstep
    obtain ⟨⟨p1, e1⟩, hr⟩ :=
      ih (idx + 1) (fun text md hm => hmd text md (List.mem_cons_of_mem _ hm))
    exact ⟨(p0 ++ p1, e0 ++ e1), by rw [processFrom, hs, hr]⟩

/-- A successful return of `process_image_with_captions` is a successful run
of the loop from index 0. -/
theorem process_ok_elim {raw_chunks : List Element} {use_gemini : Bool}
    {gemini_api_key : Option String} {gemini : String → List Nat → Except String String}
    {ps : List OutEntry} {es : List ErrorData}
    (h : process_image_with_captions raw_chunks use_gemini gemini_api_key gemini =
      .ok (ps, es)) :
    processFrom use_gemini gemini raw_chunks raw_chunks 0 = .ok (ps, es) := by
  by_cases hc : (use_gemini && !(truthyKey gemini_api_key)) = true
  · simp only [process_image_with_captions, if_pos hc] at h
    exact absurd h (by simp)
  · simp only [process_image_with_captions, if_neg hc] at h
    exact h

/-! ### The claims -/

/-- Claim C1: for every input sequence and both settings of `use_gemini`, the
entry that `process_image_with_captions` appends to the returned
processed-images collection for each Image element is the error record (the
dict with fields `error` and `error_message`), not the constructed Processed
Image Record, in all cases including the success path. -/
theorem claim_C1 (raw_chunks : List Element) (use_gemini : Bool)
    (gemini_api_key : Option String) (gemini : String → List Nat → Except String String)
    (ps : List OutEntry) (es : List ErrorData)
    (h : process_image_with_captions raw_chunks use_gemini gemini_api_key gemini =
      .ok (ps, es)) :
    ∀ x ∈ ps, ∃ d, x = OutEntry.errRec d := by
  obtain ⟨-, -, h3, -⟩ := processFrom_ok_shape _ _ _ _ _ _ _ (process_ok_elim h)
  intro x hx
  obtain ⟨d, hd, -⟩ := h3 x hx
  exact ⟨d, hd⟩

/-- Witness for C1: the spec scenario input, remote call disabled; the single
returned entry is the error dict. -/
theorem claim_C1_witness :
    ∃ d, OutEntry.errRec { error := none, error_message := none } = OutEntry.errRec d :=
  claim_C1 demoChunks false none gemBoom
    [OutEntry.errRec { error := none, error_message := none }] [] rfl
    (OutEntry.errRec { error := none, error_message := none }) (by simp)

/-- Counterexample to C2 as stated: on the spec scenario
`[Image(text="fig1", base64="AAAA"), FigureCaption(text="Figure 1: architecture")]`
with remote description disabled, the returned processed collection holds the
error dict `{error: None, error_message: None}`, which is not a record with
caption `"Figure 1: architecture"` and content `"fig1"`. -/
theorem claim_C2_counterexample :
    process_image_with_captions demoChunks false none gemBoom =
      .ok ([OutEntry.errRec { error := none, error_message := none }], []) ∧
    OutEntry.errRec { error := none, error_message := none } ≠
      OutEntry.imageRec { caption := "Figure 1: architecture", image_text := "fig1",
                          base64_image := some "AAAA", content := "fig1",
                          content_type := "image", filename := none } :=
  ⟨rfl, by simp⟩

/-- Claim C2, amended: with `use_gemini = False` the returned error collection
is empty and every returned processed entry is the untouched error dict
`{error: None, error_message: None}`; the constructed (but discarded)
Processed Image Record has `content` equal to the image's own extracted text
(empty string if absent) and carries the paired caption — in the scenario, a
record with caption `"Figure 1: architecture"` and content `"fig1"`. -/
theorem claim_C2 :
    (∀ (raw_chunks : List Element) (gemini_api_key : Option String)
        (gemini : String → List Nat → Except String String)
        (ps : List OutEntry) (es : List ErrorData),
      process_image_with_captions raw_chunks false gemini_api_key gemini = .ok (ps, es) →
      es = [] ∧ ∀ x ∈ ps, x = OutEntry.errRec { error := none, error_message := none }) ∧
    (∀ (caption : String) (text : Option String) (m : Metadata),
      (mkImageDataOk caption text m).content = text.getD "" ∧
      (mkImageDataOk caption text m).caption = caption) ∧
    mkImageDataOk (captionAt demoChunks 0) (some "fig1")
        { image_base64 := some "AAAA", filename := none } =
      { caption := "Figure 1: architecture", image_text := "fig1",
        base64_image := some "AAAA", content := "fig1", content_type := "image",
        filename := none : ImageData } := by
  refine ⟨?_, fun caption text m => ⟨rfl, rfl⟩, rfl⟩
  intro raw_chunks gemini_api_key gemini ps es h
  obtain ⟨-, h2, -, h4⟩ := processFrom_ok_shape _ _ _ _ _ _ _ (process_ok_elim h)
  have hall := h4 rfl
  refine ⟨?_, hall⟩
  rw [h2, List.filterMap_eq_nil_iff]
  intro x hx
  rw [hall x hx]
  rfl

/-- Witness for C2 (amended) at the spec scenario with the remote call
disabled. -/
theorem claim_C2_witness :
    ([] : List ErrorData) = [] ∧
    ∀ x ∈ [OutEntry.errRec { error := none, error_message := none }],
      x = OutEntry.errRec { error := none, error_message := none } :=
  claim_C2.1 demoChunks none gemBoom
    [OutEntry.errRec { error := none, error_message := none }] [] rfl

/-- Counterexample to C3 as stated: the sentinel produced by the code is
`"No caption available"` (capital N), not the claimed string
`"no caption available"`, shown on an Image followed by a Table. -/
theorem claim_C3_counterexample :
    captionAt noCapChunks 0 = "No caption available" ∧
    captionAt noCapChunks 0 ≠ "no caption available" :=
  ⟨rfl, by decide⟩

/-- Claim C3, amended: for every Image element that has no following element,
or whose immediately following element is not a FigureCaption, the caption
used for that image's record equals the sentinel `"No caption available"`
(capital N, unlike the claimed spelling). -/
theorem claim_C3 (raw_chunks : List Element) (idx : Nat) (text : Option String)
    (metadata : Option Metadata)
    (himg : raw_chunks[idx]? = some (Element.Image text metadata))
    (hnext : ∀ t, raw_chunks[idx + 1]? ≠ some (Element.FigureCaption t)) :
    captionAt raw_chunks idx = "No caption available" := by
  unfold captionAt
  cases hn : raw_chunks[idx + 1]? with
  | none => rfl
  | some el =>
    cases el with
    | FigureCaption t => exact absurd hn (hnext t)
    | Image t2 m2 => rfl
    | Table => rfl
    | Other => rfl

/-- Witness for C3 (amended): an Image followed by a Table gets the sentinel. -/
theorem claim_C3_witness :
    noCapChunks[0]? = some (Element.Image none
      (some { image_base64 := some "AAAA", filename := none })) ∧
    captionAt noCapChunks 0 = "No caption available" :=
  ⟨rfl, claim_C3 noCapChunks 0 none (some { image_base64 := some "AAAA", filename := none })
    rfl (fun t h => by simp [noCapChunks] at h)⟩

/-- Claim C4: for every Image element at position `idx` such that position
`idx + 1` exists and holds a FigureCaption, the caption used for that image's
record equals that FigureCaption's text, character for character. -/
theorem claim_C4 (raw_chunks : List Element) (idx : Nat) (text : Option String)
    (metadata : Option Metadata) (t : String)
    (himg : raw_chunks[idx]? = some (Element.Image text metadata))
    (hnext : raw_chunks[idx + 1]? = some (Element.FigureCaption t)) :
    captionAt raw_chunks idx = t := by
  unfold captionAt
  rw [hnext]

/-- Witness for C4 at the spec scenario: the caption is the FigureCaption's
text. -/
theorem claim_C4_witness :
    demoChunks[0]? = some demoImage ∧
    demoChunks[1]? = some (Element.FigureCaption "Figure 1: architecture") ∧
    captionAt demoChunks 0 = "Figure 1: architecture" :=
  ⟨rfl, rfl,
    claim_C4 demoChunks 0 (some "fig1") (some { image_base64 := some "AAAA", filename := none })
      "Figure 1: architecture" rfl rfl⟩

/-- Counterexample to C5 as stated: an Image element with no `metadata`
attribute is not tolerated — the unguarded `chunk.metadata.image_base64`
access of line 43 raises `AttributeError` and the whole call aborts, even
with the remote call disabled. -/
theorem claim_C5_counterexample :
    process_image_with_captions [bareImage] false none gemBoom =
      .error (.attributeError "Image object has no attribute metadata") := rfl

/-- Claim C5, amended: missing optional attributes other than `metadata`
itself are tolerated silently — an Image with arbitrary (possibly absent)
text and an arbitrary (possibly `None`) base64 payload never makes the call
raise, and whenever every Image carries its `metadata` attribute (and the
credential precondition holds) the call returns normally; but an Image
lacking `metadata` raises `AttributeError` (see the counterexample). -/
theorem claim_C5 (raw_chunks : List Element) (use_gemini : Bool)
    (gemini_api_key : Option String) (gemini : String → List Nat → Except String String)
    (hkey : use_gemini = true → truthyKey gemini_api_key = true)
    (hmd : ∀ text md, Element.Image text md ∈ raw_chunks → md.isSome) :
    ∃ r, process_image_with_captions raw_chunks use_gemini gemini_api_key gemini =
      .ok r := by
  have hc : (use_gemini && !(truthyKey gemini_api_key)) = false := by
    cases use_gemini with
    | false => rfl
    | true => simp [hkey rfl]
  obtain ⟨r, hr⟩ := processFrom_ok_of_metadata use_gemini gemini raw_chunks raw_chunks 0 hmd
  refine ⟨r, ?_⟩
  unfold process_image_with_captions
  rw [hc]
  simpa using hr

/-- Witness for C5 (amended): an Image with a present metadata attribute but a
failing remote call still returns normally. -/
theorem claim_C5_witness :
    ∃ r, process_image_with_captions [demoImage] true (some "key") gemBoom = .ok r :=
  claim_C5 [demoImage] true (some "key") gemBoom (fun _ => rfl)
    (by
      intro text md hm
      simp only [demoImage, List.mem_singleton, Element.Image.injEq] at hm
      rw [hm.2]
      rfl)

/-- Claim C6: if `use_gemini = True` and no (truthy) GEMINI_API_KEY credential
is present in the environment, `process_image_with_captions` raises the
configuration `ValueError` before any element is processed — for every input
sequence nothing is returned, so no processed record and no error record is
produced. -/
theorem claim_C6 (raw_chunks : List Element) (gemini_api_key : Option String)
    (gemini : String → List Nat → Except String String)
    (hkey : truthyKey gemini_api_key = false) :
    process_image_with_captions raw_chunks true gemini_api_key gemini =
      .error (.valueError "GEMINI_API_KEY is not set in the environment variables.") := by
  unfold process_image_with_captions
  rw [hkey]
  rfl

/-- Witness for C6: a sequence containing an Image, no credential set. -/
theorem claim_C6_witness :
    truthyKey none = false ∧
    process_image_with_captions demoChunks true none gemBoom =
      .error (.valueError "GEMINI_API_KEY is not set in the environment variables.") :=
  ⟨rfl, claim_C6 demoChunks none gemBoom rfl⟩

/-- Claim C7: when the remote description attempt for an Image raises (remote
call or base64 decoding step), the exception is not propagated: the iteration
appends exactly one Error Record carrying the exception message and the fixed
context string — the identical dict going to both output collections — the
(discarded) record's `content` stays at its fallback value, and the loop
continues with the subsequent elements unchanged. -/
theorem claim_C7 (gemini : String → List Nat → Except String String)
    (raw_chunks rest : List Element) (idx : Nat) (text : Option String) (m : Metadata)
    (e : String)
    (hfail : geminiTry gemini m.image_base64 (captionAt raw_chunks idx) text =
      .error e) :
    processFrom true gemini raw_chunks (Element.Image text (some m) :: rest) idx =
      (processFrom true gemini raw_chunks rest (idx + 1)).map
        (fun r => (OutEntry.errRec (failedData e) :: r.1, failedData e :: r.2)) ∧
    (finalImageData true gemini raw_chunks idx text m).content = text.getD "" := by
  have hstep : loopStep true gemini raw_chunks idx (Element.Image text (some m)) =
      .ok ([OutEntry.errRec (failedData e)], [failedData e]) := by
    simp [loopStep, mkImageData, mkImageDataOk, hfail, failedData]
  constructor
  · rw [processFrom, hstep]
    cases hr : processFrom true gemini raw_chunks rest (idx + 1) with
    | error err => rfl
    | ok r =>
      obtain ⟨p1, e1⟩ := r
      simp [Except.map]
  · simp [finalImageData, mkImageDataOk, hfail]

/-- Witness for C7: a one-Image suffix whose remote call raises `"boom"`. -/
theorem claim_C7_witness :
    processFrom true gemBoom []
        [Element.Image (some "t") (some { image_base64 := some "AAAA", filename := none })] 0 =
      (processFrom true gemBoom [] [] (0 + 1)).map
        (fun r => (OutEntry.errRec (failedData "boom") :: r.1, failedData "boom" :: r.2)) ∧
    (finalImageData true gemBoom [] 0 (some "t")
        { image_base64 := some "AAAA", filename := none }).content = (some "t").getD "" :=
  claim_C7 gemBoom [] [] 0 (some "t") { image_base64 := some "AAAA", filename := none }
    "boom" rfl

/-- Claim C8: whenever the call returns, the processed collection has exactly
one entry per element classified as Image (the number of iterations that
attempt record construction), and the error collection never exceeds it. -/
theorem claim_C8 (raw_chunks : List Element) (use_gemini : Bool)
    (gemini_api_key : Option String) (gemini : String → List Nat → Except String String)
    (ps : List OutEntry) (es : List ErrorData)
    (h : process_image_with_captions raw_chunks use_gemini gemini_api_key gemini =
      .ok (ps, es)) :
    ps.length = raw_chunks.countP isImage ∧ es.length ≤ ps.length := by
  obtain ⟨h1, h2, -, -⟩ := processFrom_ok_shape _ _ _ _ _ _ _ (process_ok_elim h)
  refine ⟨h1, ?_⟩
  rw [h2]
  exact List.length_filterMap_le _ _

/-- Witness for C8 at the spec scenario input (one Image, one FigureCaption). -/
theorem claim_C8_witness :
    ([OutEntry.errRec { error := none, error_message := none }] : List OutEntry).length =
      demoChunks.countP isImage ∧
    ([] : List ErrorData).length ≤
      ([OutEntry.errRec { error := none, error_message := none }] : List OutEntry).length :=
  claim_C8 demoChunks false none gemBoom
    [OutEntry.errRec { error := none, error_message := none }] [] rfl

/-- Claim C9: `process_tables_with_descriptions` raises the configuration
`ValueError` exactly when remote description is requested without a (truthy)
credential — the same error as the image generator, shown by comparing the
two calls — and otherwise performs no further work and returns nothing. -/
theorem claim_C9 (raw_chunks chunks2 : List Element) (use_gemini use_ollama : Bool)
    (gemini_api_key : Option String) (gemini : String → List Nat → Except String String) :
    (process_tables_with_descriptions raw_chunks use_gemini use_ollama gemini_api_key =
      if use_gemini && !(truthyKey gemini_api_key) then
        .error (.valueError "GEMINI_API_KEY is not set in the environment variables.")
      else .ok ()) ∧
    ((use_gemini && !(truthyKey gemini_api_key)) = true →
      process_tables_with_descriptions raw_chunks use_gemini use_ollama gemini_api_key =
        (process_image_with_captions chunks2 use_gemini gemini_api_key gemini).map
          (fun _ => ())) := by
  constructor
  · rfl
  · intro hc
    unfold process_tables_with_descriptions process_image_with_captions
    rw [hc]
    rfl

/-- Witness for C9: with `use_gemini = true` and no credential, the table stub
raises the identical configuration error as the image generator. -/
theorem claim_C9_witness :
    process_tables_with_descriptions demoChunks true true none =
      (process_image_with_captions demoChunks true none gemBoom).map (fun _ => ()) :=
  (claim_C9 demoChunks demoChunks true true none gemBoom).2 rfl

/-- Claim C10: every processed-images entry is the error dict, with both
fields `None` exactly on the no-failure paths: when no remote call was
attempted (`use_gemini = False`) or the remote attempt succeeded; when the
attempt fails with message `e`, the entry carries `e` and the fixed string
`"Error generating description with Gemini."` and is the identical dict
appended to the error collection — which is exactly the failed subset of the
processed entries. -/
theorem claim_C10 (raw_chunks : List Element) (use_gemini : Bool)
    (gemini_api_key : Option String) (gemini : String → List Nat → Except String String)
    (ps : List OutEntry) (es : List ErrorData)
    (h : process_image_with_captions raw_chunks use_gemini gemini_api_key gemini =
      .ok (ps, es)) :
    es = ps.filterMap failedOf ∧
    (∀ x ∈ ps, ∃ d, x = OutEntry.errRec d ∧
      ((d.error = none ∧ d.error_message = none) ∨
        (∃ msg, d.error = some msg ∧
          d.error_message = some "Error generating description with Gemini."))) ∧
    (use_gemini = false →
      ∀ x ∈ ps, x = OutEntry.errRec { error := none, error_message := none }) ∧
    (∀ (idx : Nat) (text : Option String) (m : Metadata) (t : String),
      geminiTry gemini m.image_base64 (captionAt raw_chunks idx) text = .ok t →
      loopStep use_gemini gemini raw_chunks idx (Element.Image text (some m)) =
        .ok ([OutEntry.errRec { error := none, error_message := none }], [])) ∧
    (∀ (idx : Nat) (text : Option String) (m : Metadata) (e : String),
      use_gemini = true →
      geminiTry gemini m.image_base64 (captionAt raw_chunks idx) text = .error e →
      loopStep use_gemini gemini raw_chunks idx (Element.Image text (some m)) =
        .ok ([OutEntry.errRec (failedData e)], [failedData e])) := by
  obtain ⟨-, h2, h3, h4⟩ := processFrom_ok_shape _ _ _ _ _ _ _ (process_ok_elim h)
  refine ⟨h2, h3, h4, ?_, ?_⟩
  · intro idx text m t hok
    cases use_gemini with
    | false => simp [loopStep, mkImageData]
    | true => simp [loopStep, mkImageData, mkImageDataOk, hok]
  · intro idx text m e hg hfail
    subst hg
    simp [loopStep, mkImageData, mkImageDataOk, hfail, failedData]

/-- Witness for C10 at the spec scenario with the remote call enabled and
succeeding: the single entry has both fields `None` and the error collection
is empty. -/
theorem claim_C10_witness :
    ([] : List ErrorData) =
      [OutEntry.errRec { error := none, error_message := none }].filterMap failedOf ∧
    (∀ x ∈ [OutEntry.errRec { error := none, error_message := none }],
      ∃ d, x = OutEntry.errRec d ∧
        ((d.error = none ∧ d.error_message = none) ∨
          (∃ msg, d.error = some msg ∧
            d.error_message = some "Error generating description with Gemini."))) ∧
    (true = false →
      ∀ x ∈ [OutEntry.errRec { error := none, error_message := none }],
        x = OutEntry.errRec { error := none, error_message := none }) ∧
    (∀ (idx : Nat) (text : Option String) (m : Metadata) (t : String),
      geminiTry gemFine m.image_base64 (captionAt demoChunks idx) text = .ok t →
      loopStep true gemFine demoChunks idx (Element.Image text (some m)) =
        .ok ([OutEntry.errRec { error := none, error_message := none }], [])) ∧
    (∀ (idx : Nat) (text : Option String) (m : Metadata) (e : String),
      true = true →
      geminiTry gemFine m.image_base64 (captionAt demoChunks idx) text = .error e →
      loopStep true gemFine demoChunks idx (Element.Image text (some m)) =
        .ok ([OutEntry.errRec (failedData e)], [failedData e])) :=
  claim_C10 demoChunks true (some "k") gemFine
    [OutEntry.errRec { error := none, error_message := none }] [] rfl

end Chunking
